import Mathlib

/-!
Verification development for the ioio-advisor pipeline coordination core.

The embedding below models, in Lean 4, the coordination layer of the
repository:

* `src/domain/models.py` — `UserQuery`, `Response` (pydantic model with
  `Response.create`);
* `src/application/agent_coordinator.py` — the `AgentCoordinator` class:
  the LangGraph workflow `process_intent → retrieve_info → analyze_info →
  compose_response → generate_visual → finalize` and the `process_query`
  entry point;
* `src/infrastructure/api/main.py` — the `POST /query` FastAPI handler,
  its `QueryRequest.clean_query` validation and `QueryResponse` model.

Python dictionaries are modelled as association lists of `String × JValue`
(`JValue` is a small JSON-like value universe).  Python exceptions are
modelled with `Except PyErr`; Python's builtin `hash` is an opaque
parameter (`String → Int`), and `id(query)` — the CPython object identity
that `process_query` mixes into the correlation identifier — is an opaque
`String` parameter.  The five agents are opaque stage functions
`Dict → Except PyErr Dict` (the designer may return any value, so it is
`Dict → Except PyErr JValue`), matching the uniform `process` contract of
`src/ports/agent_port.py`.
-/

set_option autoImplicit false

namespace IoioAdvisor

/-- A JSON-like value: the payloads that flow between pipeline stages. -/
inductive JValue : Type where
  | null : JValue
  | str : String → JValue
  | num : Int → JValue
  | boolean : Bool → JValue
  | dict : List (String × JValue) → JValue

/-- A Python dict with string keys, as an association list. -/
abbrev Dict := List (String × JValue)

/-- Python truthiness of a value (`None`, `""`, `0`, `False`, `{}` are falsy). -/
def JValue.falsy : JValue → Bool
  | .null => true
  | .str s => s.data.isEmpty
  | .num n => n == 0
  | .boolean b => !b
  | .dict d => d.isEmpty

/-- Python's `str.strip()`: remove leading and trailing whitespace. -/
def pyStrip (s : String) : String :=
  .mk (((s.data.dropWhile Char.isWhitespace).reverse.dropWhile Char.isWhitespace).reverse)

/-- Whether `needle` occurs as a contiguous substring of `hay`. -/
def containsSub (hay needle : List Char) : Bool :=
  match hay with
  | [] => needle.isEmpty
  | _ :: t => needle.isPrefixOf hay || containsSub t needle

/-- `d.get(key)` / `key in d`: first binding of `key`, if any. -/
def dget : Dict → String → Option JValue
  | [], _ => none
  | (k, v) :: rest, key => if k = key then some v else dget rest key

/-- `d[key] = val`: replace the binding of `key` if present, else append it. -/
def dset : Dict → String → JValue → Dict
  | [], key, val => [(key, val)]
  | (k, v) :: rest, key, val =>
      if k = key then (k, val) :: rest else (k, v) :: dset rest key val

/-- `d.update(u)`: assign every binding of `u` into `d`, left to right. -/
def dupdate (d u : Dict) : Dict := u.foldl (fun acc kv => dset acc kv.1 kv.2) d

/-- Python exceptions distinguished by the API handler of
`src/infrastructure/api/main.py`: `ValueError` (and pydantic
`ValidationError`, which subclasses it) is turned into HTTP 400, everything
else into HTTP 500. -/
inductive PyErr : Type where
  | valueError : String → PyErr
  | validationError : String → PyErr
  | keyError : String → PyErr
  | other : String → PyErr

/-- `str(e)` for a modelled exception. -/
def PyErr.msg : PyErr → String
  | .valueError m => m
  | .validationError m => m
  | .keyError k => "KeyError: " ++ k
  | .other m => m

/-- Opaque Python builtins the coordination core calls:
`pyHash` is `hash` applied to a string (total); `hashVal` is `hash` applied
to an arbitrary value (raises `TypeError` on unhashable values), used only
by the `query_id` fallback of `Response.create`. -/
structure PyEnv where
  pyHash : String → Int
  hashVal : JValue → Except PyErr Int

/-- The five agents behind the uniform `process(input) -> output` contract
of `src/ports/agent_port.py`.  The four mandatory agents return a dict; the
designer may return any value (`agent_coordinator._generate_visual` guards
with `isinstance(result, dict)`). -/
structure Agents where
  intention : Dict → Except PyErr Dict
  retriever : Dict → Except PyErr Dict
  reason : Dict → Except PyErr Dict
  writer : Dict → Except PyErr Dict
  designer : Dict → Except PyErr JValue

/-- `UserQuery` from `src/domain/models.py` (timestamps are opaque ISO
strings in this embedding). -/
structure UserQuery where
  query_text : String
  timestamp : String
  context : Dict

/-- `Response` from `src/domain/models.py`. -/
structure Response where
  text : String
  visualization : Dict
  query_id : String
  created_at : String

/-- Pydantic's field validation when constructing a `Response`:
`text : str`, `visualization : dict`, `query_id : str`. -/
def mkResponse (content vis_data qid : JValue) (now : String) : Except PyErr Response :=
  match content, vis_data, qid with
  | .str t, .dict d, .str q => .ok ⟨t, d, q, now⟩
  | _, _, _ => .error (.validationError "validation error for Response")

/-- `Response.create` (`src/domain/models.py` lines 53-62):
`vis_data = visualization_data or {}`, `query_id = query_id or
str(hash(content))`, then pydantic validates the fields. -/
def Response.create (E : PyEnv) (content : JValue) (visualization_data : JValue)
    (query_id : JValue) (now : String) : Except PyErr Response :=
  match (if query_id.falsy then
           match E.hashVal content with
           | .error e => .error e
           | .ok n => .ok (JValue.str (toString n))
         else .ok query_id : Except PyErr JValue) with
  | .error e => .error e
  | .ok qid =>
      mkResponse content
        (if visualization_data.falsy then .dict [] else visualization_data) qid now

/-- The string handed to `hash` when `process_query` builds the correlation
identifier: the f-string of `agent_coordinator.py` line 77, with `oid` the
decimal rendering of `id(query)`. -/
def queryIdInput (query_text timestamp oid : String) : String :=
  query_text ++ "_" ++ timestamp ++ "_" ++ oid

/-- `query_id = str(hash(f"..."))` (`agent_coordinator.py` line 77). -/
def queryId (pyHash : String → Int) (query_text timestamp oid : String) : String :=
  toString (pyHash (queryIdInput query_text timestamp oid))

/-- The "essential information" merged into the context at the start of
`process_query` (`agent_coordinator.py` lines 80-84). -/
def essentialContext (query_id timestamp original_query : String) : Dict :=
  [("query_id", .str query_id), ("timestamp", .str timestamp),
   ("original_query", .str original_query)]

/-- The context dict the pipeline starts from: `query.context or {}` updated
with the essential information. -/
def initialContext (q : UserQuery) (query_id timestamp : String) : Dict :=
  dupdate q.context (essentialContext query_id timestamp q.query_text)

/-- The dict object the caller's `query.context` refers to after the
`context.update(...)` at the start of `process_query`: `query.context or {}`
aliases the caller's dict exactly when it is non-empty (truthy), so the
update mutates the caller's dict in that case and leaves it untouched when
it is empty. -/
def callerContextAfterInit (E : PyEnv) (q : UserQuery) (timestamp oid : String) : Dict :=
  if q.context.isEmpty then q.context
  else initialContext q (queryId E.pyHash q.query_text timestamp oid) timestamp

/-- The mutable pipeline state threaded through the LangGraph nodes: the
keys of `initial_state` in `process_query` (`agent_coordinator.py` lines
87-94). -/
structure PState where
  query : String
  context : Dict
  intent : JValue
  analysis : JValue
  response : JValue
  visualization : JValue

/-- `initial_state` of `process_query`: all result slots are `None`. -/
def initialState (q : UserQuery) (query_id timestamp : String) : PState :=
  { query := q.query_text
    context := initialContext q query_id timestamp
    intent := .null
    analysis := .null
    response := .null
    visualization := .null }

/-- Input view handed to the intention agent (`_process_intent`). -/
def intentInput (s : PState) : Dict :=
  [("query", .str s.query), ("context", .dict s.context)]

/-- Input view handed to the retriever agent (`_retrieve_info`). -/
def retrieveInput (s : PState) : Dict :=
  [("query", .str s.query), ("context", .dict s.context), ("intent", s.intent)]

/-- Input view handed to the reason agent (`_analyze_info`). -/
def reasonInput (s : PState) : Dict :=
  [("query", .str s.query), ("context", .dict s.context), ("intent", s.intent)]

/-- Input view handed to the writer agent (`_compose_response`). -/
def writeInput (s : PState) : Dict :=
  [("query", .str s.query), ("context", .dict s.context), ("analysis", s.analysis)]

/-- Input view handed to the designer agent (`_generate_visual`). -/
def visualInput (s : PState) : Dict :=
  [("context", .dict s.context), ("response", s.response)]

/-- `AgentCoordinator._process_intent`: `state["intent"] = result`. -/
def processIntent (A : Agents) (s : PState) : Except PyErr PState :=
  match A.intention (intentInput s) with
  | .error e => .error e
  | .ok result => .ok { s with intent := .dict result }

/-- `AgentCoordinator._retrieve_info`: `state["context"].update(result)`. -/
def retrieveInfo (A : Agents) (s : PState) : Except PyErr PState :=
  match A.retriever (retrieveInput s) with
  | .error e => .error e
  | .ok result => .ok { s with context := dupdate s.context result }

/-- `AgentCoordinator._analyze_info`: `state["analysis"] = result`. -/
def analyzeInfo (A : Agents) (s : PState) : Except PyErr PState :=
  match A.reason (reasonInput s) with
  | .error e => .error e
  | .ok result => .ok { s with analysis := .dict result }

/-- `AgentCoordinator._compose_response`: `state["response"] =
result["response"]` (a missing key raises `KeyError`). -/
def composeResponse (A : Agents) (s : PState) : Except PyErr PState :=
  match A.writer (writeInput s) with
  | .error e => .error e
  | .ok result =>
      match dget result "response" with
      | none => .error (.keyError "response")
      | some v => .ok { s with response := v }

/-- The value `_generate_visual` stores: `result["visualization"]` when the
designer result is a dict with that key, otherwise the raw result. -/
def visValue : JValue → JValue
  | .dict d =>
      match dget d "visualization" with
      | some v => v
      | none => .dict d
  | r => r

/-- `AgentCoordinator._generate_visual`: `state["visualization"]` receives
`visValue` of the designer's result. -/
def generateVisual (A : Agents) (s : PState) : Except PyErr PState :=
  match A.designer (visualInput s) with
  | .error e => .error e
  | .ok result => .ok { s with visualization := visValue result }

/-- `AgentCoordinator._finalize`: the identity node. -/
def finalizeState (s : PState) : Except PyErr PState := .ok s

/-- The compiled LangGraph workflow of `_build_graph`: the linear chain
`process_intent → retrieve_info → analyze_info → compose_response →
generate_visual → finalize` with entry point `process_intent`. -/
def runGraph (A : Agents) (s : PState) : Except PyErr PState :=
  match processIntent A s with
  | .error e => .error e
  | .ok s1 =>
      match retrieveInfo A s1 with
      | .error e => .error e
      | .ok s2 =>
          match analyzeInfo A s2 with
          | .error e => .error e
          | .ok s3 =>
              match composeResponse A s3 with
              | .error e => .error e
              | .ok s4 =>
                  match generateVisual A s4 with
                  | .error e => .error e
                  | .ok s5 => finalizeState s5

/-- `AgentCoordinator.process_query` (lines 69-121): builds the correlation
identifier from query text, timestamp and `id(query)`, runs the graph, and
builds the `Response` from the final state; any exception from the graph is
caught, logged and re-raised. -/
def process_query (E : PyEnv) (A : Agents) (q : UserQuery)
    (timestamp oid now : String) : Except PyErr Response :=
  let query_id := queryId E.pyHash q.query_text timestamp oid
  match runGraph A (initialState q query_id timestamp) with
  | .error e => .error e
  | .ok final_state =>
      match dget final_state.context "query_id" with
      | none => .error (.keyError "query_id")
      | some qv =>
          Response.create E final_state.response final_state.visualization qv now

/-- `QueryRequest` from `src/infrastructure/api/main.py`. -/
structure QueryRequest where
  query : String
  context : Option Dict

/-- `QueryRequest.clean_query` (`main.py` lines 51-56): raises `ValueError`
on empty or whitespace-only text, else returns the stripped text. -/
def cleanQuery (query : String) : Except PyErr String :=
  if query.data.isEmpty || (pyStrip query).data.isEmpty then
    .error (.valueError "Query cannot be empty")
  else .ok (pyStrip query)

/-- `QueryResponse` from `main.py` (pydantic response model of the
`POST /query` route). -/
structure QueryResponse where
  text : String
  visualization_url : Option String
  image_url : Option String
  created_at : String

/-- Pydantic validation of an `Optional[str]` field value. -/
def asOptStr : JValue → Except PyErr (Option String)
  | .null => .ok none
  | .str s => .ok (some s)
  | _ => .error (.validationError "str type expected")

/-- Serialization of an `Optional[str]` field into the JSON body. -/
def optJ : Option String → JValue
  | none => .null
  | some s => .str s

/-- The JSON body FastAPI serializes a `QueryResponse` into: all four
declared fields, in declaration order. -/
def QueryResponse.body (r : QueryResponse) : Dict :=
  [("text", .str r.text), ("visualization_url", optJ r.visualization_url),
   ("image_url", optJ r.image_url), ("created_at", .str r.created_at)]

/-- Outcome of the `POST /query` route: a validated `QueryResponse`, or an
`HTTPException` with status code and detail message. -/
inductive ApiResult : Type where
  | ok : QueryResponse → ApiResult
  | httpError : Nat → String → ApiResult

/-- The clocks read during one handling of `POST /query` (`datetime.now`
is read at five distinct places). -/
structure Clock where
  apiContextTs : String
  queryCreatedTs : String
  coordinatorTs : String
  responseTs : String
  handlerTs : String

/-- `request.context or {}`. -/
def reqContext (req : QueryRequest) : Dict := req.context.getD []

/-- The `UserQuery` the handler builds: stripped query text, a fresh
creation timestamp, and the request context with the handler's own
`timestamp` key assigned (`main.py` lines 76-94). -/
def handlerUserQuery (c : Clock) (req : QueryRequest) (clean : String) : UserQuery :=
  { query_text := clean
    timestamp := c.queryCreatedTs
    context := dset (reqContext req) "timestamp" (.str c.apiContextTs) }

/-- The `except` clauses of the route (`main.py` lines 110-121):
`ValueError` (including pydantic `ValidationError`, its subclass) becomes
HTTP 400 with `str(e)`; any other exception becomes HTTP 500 with
`"Error processing query: " + str(e)`. -/
def apiError : PyErr → ApiResult
  | .valueError m => .httpError 400 m
  | .validationError m => .httpError 400 m
  | e => .httpError 500 ("Error processing query: " ++ e.msg)

/-- The `POST /query` route body (`main.py` lines 71-121): validation,
coordinator invocation, and extraction of `visualization_url` / `image_url`
from `response.visualization or {}` with `''` as the `.get` default. -/
def process_query_route (E : PyEnv) (A : Agents) (c : Clock) (oid : String)
    (req : QueryRequest) : ApiResult :=
  match cleanQuery req.query with
  | .error e => apiError e
  | .ok clean =>
      match process_query E A (handlerUserQuery c req clean) c.coordinatorTs oid c.responseTs with
      | .error e => apiError e
      | .ok resp =>
          match asOptStr ((dget resp.visualization "visualization_url").getD (.str "")) with
          | .error e => apiError e
          | .ok vu =>
              match asOptStr ((dget resp.visualization "image_url").getD (.str "")) with
              | .error e => apiError e
              | .ok iu =>
                  .ok { text := resp.text, visualization_url := vu,
                        image_url := iu, created_at := c.handlerTs }

/-! ### Concrete fixtures used by witnesses and counterexamples -/

/-- A concrete builtin environment: the constant-zero hash. -/
def pyEnv0 : PyEnv := { pyHash := fun _ => 0, hashVal := fun _ => .ok 0 }

/-- A concrete intent-stage output. -/
def okIntent : Dict := [("main_topic", .str "investment"), ("confidence", .num 95)]

/-- A concrete retriever-stage output. -/
def okInfo : Dict := [("market_data", .dict [("stocks", .str "AAPL")])]

/-- A concrete reason-stage output. -/
def okAnalysis : Dict := [("topic", .str "investment")]

/-- A concrete writer answer text. -/
def okText : String := "Market looks stable."

/-- A concrete designer visualization payload. -/
def okVis : Dict := [("visualization_url", .null), ("image_url", .str "images/chart.png")]

/-- Agents on which all five stages succeed. -/
def goodAgents : Agents :=
  { intention := fun _ => .ok okIntent
    retriever := fun _ => .ok okInfo
    reason := fun _ => .ok okAnalysis
    writer := fun _ => .ok [("response", .str okText)]
    designer := fun _ => .ok (.dict [("visualization", .dict okVis)]) }

/-- A concrete query with an empty caller context. -/
def q0 : UserQuery := { query_text := "como esta el mercado", timestamp := "QT", context := [] }

/-- A concrete clock for route-level runs. -/
def clock0 : Clock :=
  { apiContextTs := "CTX_TS", queryCreatedTs := "Q_TS", coordinatorTs := "COORD_TS",
    responseTs := "RESP_TS", handlerTs := "HANDLER_TS" }

/-- Agents whose designer (Visualize) stage raises. -/
def c1Agents : Agents := { goodAgents with designer := fun _ => .error (.other "visual boom") }

/-- Agents whose reason stage raises. -/
def c2Agents : Agents := { goodAgents with reason := fun _ => .error (.other "boom") }

/-- Agents whose writer produces an empty answer string. -/
def c3Agents : Agents := { goodAgents with writer := fun _ => .ok [("response", .str "")] }

/-- Agents whose retriever returns a key that collides with the
coordinator-owned `timestamp` context key. -/
def c4Agents : Agents :=
  { goodAgents with retriever := fun _ => .ok [("timestamp", .str "OVERWRITTEN")] }

/-- Agents whose writer returns a success-shaped dict without `response`. -/
def c10Agents : Agents :=
  { goodAgents with writer := fun _ => .ok [("message", .str "hello")] }

/-- A concrete query whose caller supplied a non-empty context dict. -/
def qc : UserQuery := { query_text := "hola", timestamp := "QT", context := [("a", .num 1)] }

/-- A concrete stand-in for Python's string hash (sums the code points):
used only to exhibit dependence of the correlation identifier on its input. -/
def sumHash (s : String) : Int := ((s.data.map Char.toNat).sum : Int)

/-- A concrete valid request. -/
def req0 : QueryRequest := { query := "como esta el mercado", context := none }

/-- A concrete whitespace-only request. -/
def reqBlank : QueryRequest := { query := "   ", context := none }

/-- The initial pipeline state of a concrete coordinator run. -/
def s0c : PState := initialState q0 (queryId pyEnv0.pyHash q0.query_text "TS" "OID") "TS"

/-- State after the intent stage of the concrete run. -/
def s1c : PState := { s0c with intent := .dict okIntent }

/-- State after the retrieve stage of the concrete run. -/
def s2c : PState := { s1c with context := dupdate s1c.context okInfo }

/-- State after the reason stage of the concrete run. -/
def s3c : PState := { s2c with analysis := .dict okAnalysis }

/-- State after the write stage of the concrete run. -/
def s4c : PState := { s3c with response := .str okText }

/-- State after the visualize stage of the concrete run. -/
def s5c : PState := { s4c with visualization := .dict okVis }

/-- The route-level response of the concrete successful run. -/
def qr0 : QueryResponse :=
  { text := okText, visualization_url := none,
    image_url := some "images/chart.png", created_at := "HANDLER_TS" }

/-! ### Association-list lemmas -/

theorem dget_dset_self (d : Dict) (key : String) (val : JValue) :
    dget (dset d key val) key = some val := by
  induction d with
  | nil => simp [dset, dget]
  | cons hd tl ih =>
      obtain ⟨k, v⟩ := hd
      by_cases hk : k = key
      · simp [dset, hk, dget]
      · simp [dset, hk, dget, ih]

theorem dget_dset_ne (d : Dict) (key : String) (val : JValue) (k : String)
    (hne : key ≠ k) : dget (dset d key val) k = dget d k := by
  induction d with
  | nil => simp [dset, dget, hne]
  | cons hd tl ih =>
      obtain ⟨k0, v0⟩ := hd
      by_cases hk : k0 = key
      · subst hk
        simp [dset, dget, hne]
      · simp [dset, hk, dget]
        by_cases hk2 : k0 = k
        · simp [hk2]
        · simp [hk2, ih]

theorem dget_dset_isSome (d : Dict) (key : String) (val : JValue) (k : String)
    (h : (dget d k).isSome) : (dget (dset d key val) k).isSome := by
  by_cases hk : key = k
  · subst hk
    simp [dget_dset_self]
  · rw [dget_dset_ne d key val k hk]
    exact h

/-- `dict.update` never deletes a key: every key present before the update is
still present afterwards. -/
theorem dget_dupdate_isSome (u : Dict) (d : Dict) (k : String)
    (h : (dget d k).isSome) : (dget (dupdate d u) k).isSome := by
  induction u generalizing d with
  | nil => exact h
  | cons hd tl ih =>
      show (dget (dupdate (dset d hd.1 hd.2) tl) k).isSome
      exact ih _ (dget_dset_isSome d hd.1 hd.2 k h)

/-- A key untouched by the update keeps its value. -/
theorem dget_dupdate_notMem (u : Dict) (d : Dict) (k : String)
    (h : ∀ kv ∈ u, kv.1 ≠ k) : dget (dupdate d u) k = dget d k := by
  induction u generalizing d with
  | nil => rfl
  | cons hd tl ih =>
      show dget (dupdate (dset d hd.1 hd.2) tl) k = dget d k
      rw [ih _ fun kv hkv => h kv (List.mem_cons_of_mem _ hkv)]
      exact dget_dset_ne d hd.1 hd.2 k (h hd (List.mem_cons_self _ _))

/-! ### Inversion lemmas for the graph nodes -/

theorem processIntent_inv {A : Agents} {s s' : PState}
    (h : processIntent A s = .ok s') :
    ∃ r, A.intention (intentInput s) = .ok r ∧ s' = { s with intent := .dict r } := by
  unfold processIntent at h
  split at h
  next e heq => exact Except.noConfusion h
  next r heq => injection h with h; exact ⟨r, heq, h.symm⟩

theorem retrieveInfo_inv {A : Agents} {s s' : PState}
    (h : retrieveInfo A s = .ok s') :
    ∃ r, A.retriever (retrieveInput s) = .ok r ∧
      s' = { s with context := dupdate s.context r } := by
  unfold retrieveInfo at h
  split at h
  next e heq => exact Except.noConfusion h
  next r heq => injection h with h; exact ⟨r, heq, h.symm⟩

theorem analyzeInfo_inv {A : Agents} {s s' : PState}
    (h : analyzeInfo A s = .ok s') :
    ∃ r, A.reason (reasonInput s) = .ok r ∧ s' = { s with analysis := .dict r } := by
  unfold analyzeInfo at h
  split at h
  next e heq => exact Except.noConfusion h
  next r heq => injection h with h; exact ⟨r, heq, h.symm⟩

theorem composeResponse_inv {A : Agents} {s s' : PState}
    (h : composeResponse A s = .ok s') :
    ∃ r v, A.writer (writeInput s) = .ok r ∧ dget r "response" = some v ∧
      s' = { s with response := v } := by
  unfold composeResponse at h
  split at h
  next e heq => exact Except.noConfusion h
  next r heq =>
    split at h
    next hv => exact Except.noConfusion h
    next v hv => injection h with h; exact ⟨r, v, heq, hv, h.symm⟩

theorem generateVisual_inv {A : Agents} {s s' : PState}
    (h : generateVisual A s = .ok s') :
    ∃ r, A.designer (visualInput s) = .ok r ∧
      s' = { s with visualization := visValue r } := by
  unfold generateVisual at h
  split at h
  next e heq => exact Except.noConfusion h
  next r heq => injection h with h; exact ⟨r, heq, h.symm⟩

theorem runGraph_inv {A : Agents} {s sf : PState} (h : runGraph A s = .ok sf) :
    ∃ s1 s2 s3 s4, processIntent A s = .ok s1 ∧ retrieveInfo A s1 = .ok s2 ∧
      analyzeInfo A s2 = .ok s3 ∧ composeResponse A s3 = .ok s4 ∧
      generateVisual A s4 = .ok sf := by
  unfold runGraph at h
  split at h
  next e h1 => exact Except.noConfusion h
  next s1 h1 =>
    split at h
    next e h2 => exact Except.noConfusion h
    next s2 h2 =>
      split at h
      next e h3 => exact Except.noConfusion h
      next s3 h3 =>
        split at h
        next e h4 => exact Except.noConfusion h
        next s4 h4 =>
          split at h
          next e h5 => exact Except.noConfusion h
          next s5 h5 =>
            unfold finalizeState at h
            injection h with h
            exact ⟨s1, s2, s3, s4, h1, h2, h3, h4, h ▸ h5⟩

/-- When the four mandatory stages succeed, the graph's outcome is exactly
the outcome of the visualize node on the state the writer produced. -/
theorem runGraph_eq_generateVisual {A : Agents} {s s1 s2 s3 s4 : PState}
    (h1 : processIntent A s = .ok s1) (h2 : retrieveInfo A s1 = .ok s2)
    (h3 : analyzeInfo A s2 = .ok s3) (h4 : composeResponse A s3 = .ok s4) :
    runGraph A s = generateVisual A s4 := by
  unfold runGraph
  simp only [h1, h2, h3, h4]
  cases h5 : generateVisual A s4 with
  | error e => rfl
  | ok s5 => rfl

/-- Inverting a successful `mkResponse`: the text is exactly the `content`
argument, which therefore was a string. -/
theorem mkResponse_inv {content v q : JValue} {now : String} {resp : Response}
    (h : mkResponse content v q now = .ok resp) : content = .str resp.text := by
  cases content <;> cases v <;> cases q <;> (try exact Except.noConfusion h)
  injection h with h
  rw [← h]

/-- Inverting a successful `Response.create`: the text is exactly the
`content` argument, which therefore was a string. -/
theorem ResponseCreate_inv {E : PyEnv} {content vis qid : JValue} {now : String}
    {resp : Response} (h : Response.create E content vis qid now = .ok resp) :
    content = .str resp.text := by
  unfold Response.create at h
  split at h
  all_goals
    first
    | exact Except.noConfusion h
    | exact mkResponse_inv h

/-- `apiError` never yields a successful route result. -/
theorem apiError_ne_ok (e : PyErr) (qr : QueryResponse) : apiError e ≠ .ok qr := by
  cases e <;> exact fun h => ApiResult.noConfusion h

/-- C6. For every query, the graph executes the stages in the fixed order
Intent → Retrieve → Reason → Write → Visualize: when the four mandatory
stages succeed, the remaining work of the graph is exactly the visualize
node on the writer's state; the reason stage's input carries the intent
stage's output under `intent` and the retriever's output merged into
`context`; the write stage's input carries the reason stage's output under
`analysis`; and the visualize stage's input carries the response value the
writer produced. -/
theorem c6_stage_order (A : Agents) (q : UserQuery) (query_id timestamp : String)
    (s1 s2 s3 s4 : PState)
    (h1 : processIntent A (initialState q query_id timestamp) = .ok s1)
    (h2 : retrieveInfo A s1 = .ok s2)
    (h3 : analyzeInfo A s2 = .ok s3)
    (h4 : composeResponse A s3 = .ok s4) :
    runGraph A (initialState q query_id timestamp) = generateVisual A s4
    ∧ (∃ rI, A.intention (intentInput (initialState q query_id timestamp)) = .ok rI ∧
        dget (reasonInput s2) "intent" = some (.dict rI))
    ∧ (∃ rR, A.retriever (retrieveInput s1) = .ok rR ∧
        dget (reasonInput s2) "context" = some (.dict (dupdate s1.context rR)))
    ∧ (∃ rA, A.reason (reasonInput s2) = .ok rA ∧
        dget (writeInput s3) "analysis" = some (.dict rA))
    ∧ (∃ rW, A.writer (writeInput s3) = .ok rW ∧
        dget rW "response" = some s4.response ∧
        dget (visualInput s4) "response" = some s4.response) := by
  obtain ⟨rI, hI, e1⟩ := processIntent_inv h1
  obtain ⟨rR, hR, e2⟩ := retrieveInfo_inv h2
  obtain ⟨rA, hA, e3⟩ := analyzeInfo_inv h3
  obtain ⟨rW, v, hW, hv, e4⟩ := composeResponse_inv h4
  subst e1 e2 e3 e4
  exact ⟨runGraph_eq_generateVisual h1 h2 h3 h4,
    ⟨rI, hI, rfl⟩, ⟨rR, hR, rfl⟩, ⟨rA, hA, rfl⟩, ⟨rW, hW, hv, rfl⟩⟩

/-- Witness for C6 on a concrete run in which all stages succeed. -/
theorem c6_stage_order_witness :
    runGraph goodAgents s0c = generateVisual goodAgents s4c
    ∧ (∃ rI, goodAgents.intention (intentInput s0c) = .ok rI ∧
        dget (reasonInput s2c) "intent" = some (.dict rI))
    ∧ (∃ rR, goodAgents.retriever (retrieveInput s1c) = .ok rR ∧
        dget (reasonInput s2c) "context" = some (.dict (dupdate s1c.context rR)))
    ∧ (∃ rA, goodAgents.reason (reasonInput s2c) = .ok rA ∧
        dget (writeInput s3c) "analysis" = some (.dict rA))
    ∧ (∃ rW, goodAgents.writer (writeInput s3c) = .ok rW ∧
        dget rW "response" = some s4c.response ∧
        dget (visualInput s4c) "response" = some s4c.response) :=
  c6_stage_order goodAgents q0 (queryId pyEnv0.pyHash q0.query_text "TS" "OID") "TS"
    s1c s2c s3c s4c rfl rfl rfl rfl

/-- C4 (amended). Context presence is monotone: every key present in the
context of the initial state is still present after the whole pipeline;
moreover a key that does not collide with the retriever's output keeps its
value unchanged.  (The claim's "no overwrite" part fails: `_retrieve_info`
merges the retriever's whole result into the context with `dict.update`,
which overwrites colliding keys — see the counterexample.) -/
theorem c4_context_presence (A : Agents) (s0 sf : PState)
    (h : runGraph A s0 = .ok sf) (k : String) (hk : (dget s0.context k).isSome) :
    (dget sf.context k).isSome ∧
    ∀ s1 rR, processIntent A s0 = .ok s1 →
      A.retriever (retrieveInput s1) = .ok rR →
      (∀ kv ∈ rR, kv.1 ≠ k) → dget sf.context k = dget s0.context k := by
  obtain ⟨s1, s2, s3, s4, h1, h2, h3, h4, h5⟩ := runGraph_inv h
  obtain ⟨rI, hI, e1⟩ := processIntent_inv h1
  obtain ⟨rR, hR, e2⟩ := retrieveInfo_inv h2
  obtain ⟨rA, hA, e3⟩ := analyzeInfo_inv h3
  obtain ⟨rW, v, hW, hv, e4⟩ := composeResponse_inv h4
  obtain ⟨rD, hD, e5⟩ := generateVisual_inv h5
  subst e1 e2 e3 e4 e5
  refine ⟨dget_dupdate_isSome rR s0.context k hk, ?_⟩
  intro s1' rR' h1' h2' hdisj
  have hs1 : s1' = { s0 with intent := .dict rI } := by
    have := h1'.symm.trans h1
    exact Except.ok.inj this
  subst hs1
  have hrr : rR' = rR := Except.ok.inj (h2'.symm.trans hR)
  rw [hrr] at hdisj
  exact dget_dupdate_notMem rR s0.context k hdisj

/-- C4 counterexample: the retriever's result can overwrite an existing
context key — here the coordinator-owned `timestamp` key changes value
across the retrieve stage, contradicting "no stage invocation ...
overwrites existing context keys". -/
theorem c4_counterexample :
    dget s0c.context "timestamp" = some (.str "TS") ∧
    retrieveInfo c4Agents s0c =
      .ok { s0c with context := dupdate s0c.context [("timestamp", .str "OVERWRITTEN")] } ∧
    dget (dupdate s0c.context [("timestamp", .str "OVERWRITTEN")]) "timestamp" =
      some (.str "OVERWRITTEN") := ⟨rfl, rfl, rfl⟩

/-- Witness for C4 on a concrete run: the `query_id` key survives the whole
pipeline with its value unchanged. -/
theorem c4_context_presence_witness :
    (dget s5c.context "query_id").isSome ∧
    ∀ s1 rR, processIntent goodAgents s0c = .ok s1 →
      goodAgents.retriever (retrieveInput s1) = .ok rR →
      (∀ kv ∈ rR, kv.1 ≠ "query_id") →
      dget s5c.context "query_id" = dget s0c.context "query_id" :=
  c4_context_presence goodAgents s0c s5c rfl "query_id" (by decide)

/-- C1 counterexample: with agents on which the four mandatory stages
succeed (identical to `goodAgents`, whose full run returns a `Response`),
a designer exception makes `process_query` itself fail — no `Response` is
returned and the exception reaches the caller, contradicting the claim. -/
theorem c1_counterexample :
    process_query pyEnv0 c1Agents q0 "TS" "OID" "NOW" = .error (.other "visual boom") ∧
    process_query pyEnv0 goodAgents q0 "TS" "OID" "NOW" =
      .ok { text := okText, visualization := okVis, query_id := "0", created_at := "NOW" } :=
  ⟨rfl, rfl⟩

/-- C1 (amended). A Visualize-stage exception is caught and logged in
`process_query` but re-raised: when the four mandatory stages succeed and
the designer raises, `process_query` propagates that very exception, and no
`Response` is constructed. -/
theorem c1_visual_failure_propagates (E : PyEnv) (A : Agents) (q : UserQuery)
    (ts oid now : String) (s1 s2 s3 s4 : PState) (e : PyErr)
    (h1 : processIntent A (initialState q (queryId E.pyHash q.query_text ts oid) ts) = .ok s1)
    (h2 : retrieveInfo A s1 = .ok s2)
    (h3 : analyzeInfo A s2 = .ok s3)
    (h4 : composeResponse A s3 = .ok s4)
    (hD : A.designer (visualInput s4) = .error e) :
    process_query E A q ts oid now = .error e := by
  have hg : runGraph A (initialState q (queryId E.pyHash q.query_text ts oid) ts) =
      generateVisual A s4 := runGraph_eq_generateVisual h1 h2 h3 h4
  have hgv : generateVisual A s4 = .error e := by
    unfold generateVisual
    rw [hD]
  simp only [process_query, hg, hgv]

/-- Witness for C1 (amended) on the concrete failing-designer run. -/
theorem c1_visual_failure_propagates_witness :
    process_query pyEnv0 c1Agents q0 "TS" "OID" "NOW" = .error (.other "visual boom") :=
  c1_visual_failure_propagates pyEnv0 c1Agents q0 "TS" "OID" "NOW"
    s1c s2c s3c s4c (.other "visual boom") rfl rfl rfl rfl rfl

/-- C2 counterexample: a reason-stage exception with message `boom` reaches
the caller as HTTP 500 with detail `Error processing query: boom`; the
detail does not contain the stage name `reason` as a substring,
contradicting "identifies the originating stage's name". -/
theorem c2_counterexample :
    process_query_route pyEnv0 c2Agents clock0 "OID" req0 =
      .httpError 500 "Error processing query: boom" ∧
    containsSub "Error processing query: boom".data "reason".data = false :=
  ⟨rfl, by decide⟩

/-- C2 (amended). When a mandatory stage raises a (non-`ValueError`)
exception, no `Response` is constructed and the caller receives HTTP 500
whose detail is the fixed prefix plus the underlying error text; neither
the coordinator nor the handler attaches the originating stage's name (it
is identifiable only if the stage's own message mentions it). -/
theorem c2_stage_error_propagates (E : PyEnv) (A : Agents) (c : Clock)
    (oid : String) (req : QueryRequest) (clean m : String)
    (hc : cleanQuery req.query = .ok clean)
    (hp : process_query E A (handlerUserQuery c req clean) c.coordinatorTs oid
      c.responseTs = .error (.other m)) :
    process_query_route E A c oid req =
      .httpError 500 ("Error processing query: " ++ m) := by
  unfold process_query_route
  simp only [hc, hp]
  rfl

/-- Witness for C2 (amended) on the concrete failing-reason run. -/
theorem c2_stage_error_propagates_witness :
    process_query_route pyEnv0 c2Agents clock0 "OID" req0 =
      .httpError 500 ("Error processing query: " ++ "boom") :=
  c2_stage_error_propagates pyEnv0 c2Agents clock0 "OID" req0
    "como esta el mercado" "boom" rfl rfl

/-- C3 counterexample: on a non-empty query, if the writer produces an
empty string under `response`, `process_query` returns a `Response` whose
`text` is empty, with no error — contradicting "never returns a Response
whose text is empty with no error". -/
theorem c3_counterexample :
    q0.query_text ≠ "" ∧
    process_query pyEnv0 c3Agents q0 "TS" "OID" "NOW" =
      .ok { text := "", visualization := okVis, query_id := "0", created_at := "NOW" } :=
  ⟨by decide, rfl⟩

/-- C3 (amended). A `Response` is returned only when the writer produced a
string under the `response` key, and the `Response` text is exactly that
string, with no emptiness check (a missing key is a hard `KeyError`
failure, but the empty string is accepted). -/
theorem c3_text_is_writer_output (E : PyEnv) (A : Agents) (q : UserQuery)
    (ts oid now : String) (resp : Response)
    (h : process_query E A q ts oid now = .ok resp) :
    ∃ s1 s2 s3 rW,
      processIntent A (initialState q (queryId E.pyHash q.query_text ts oid) ts) = .ok s1 ∧
      retrieveInfo A s1 = .ok s2 ∧ analyzeInfo A s2 = .ok s3 ∧
      A.writer (writeInput s3) = .ok rW ∧
      dget rW "response" = some (.str resp.text) := by
  simp only [process_query] at h
  split at h
  next e hg => exact Except.noConfusion h
  next sf hg =>
    obtain ⟨s1, s2, s3, s4, h1, h2, h3, h4, h5⟩ := runGraph_inv hg
    obtain ⟨rW, v, hW, hv, e4⟩ := composeResponse_inv h4
    obtain ⟨rD, hD, e5⟩ := generateVisual_inv h5
    split at h
    next hq => exact Except.noConfusion h
    next qv hq =>
      have hcontent : sf.response = .str resp.text := ResponseCreate_inv h
      rw [e5, e4] at hcontent
      have hv2 : v = JValue.str resp.text := hcontent
      rw [hv2] at hv
      exact ⟨s1, s2, s3, rW, h1, h2, h3, hW, hv⟩

/-- Witness for C3 (amended) on the concrete empty-answer run. -/
theorem c3_text_is_writer_output_witness :
    ∃ s1 s2 s3 rW,
      processIntent c3Agents
        (initialState q0 (queryId pyEnv0.pyHash q0.query_text "TS" "OID") "TS") = .ok s1 ∧
      retrieveInfo c3Agents s1 = .ok s2 ∧ analyzeInfo c3Agents s2 = .ok s3 ∧
      c3Agents.writer (writeInput s3) = .ok rW ∧
      dget rW "response" =
        some (.str (Response.text
          { text := "", visualization := okVis, query_id := "0", created_at := "NOW" })) :=
  c3_text_is_writer_output pyEnv0 c3Agents q0 "TS" "OID" "NOW"
    { text := "", visualization := okVis, query_id := "0", created_at := "NOW" } rfl

/-- C5 counterexample: a non-empty caller-supplied context dict is mutated
by `process_query` — after the call it contains the `query_id` and
`original_query` keys the caller never put there, contradicting "the
caller-supplied context mapping is exactly as before the call". -/
theorem c5_counterexample :
    dget qc.context "query_id" = none ∧
    dget (callerContextAfterInit pyEnv0 qc "TS" "OID") "query_id" = some (.str "0") ∧
    dget (callerContextAfterInit pyEnv0 qc "TS" "OID") "original_query" =
      some (.str "hola") :=
  ⟨rfl, rfl, rfl⟩

/-- C5 (amended). `query_text` and `timestamp` are never reassigned, and an
empty caller context is left untouched (`query.context or {}` makes a fresh
dict); but a non-empty caller context dict is aliased and mutated in place:
the keys `query_id`, `timestamp` and `original_query` are assigned into it
at the start of `process_query`. -/
theorem c5_context_mutation (E : PyEnv) (q : UserQuery) (ts oid : String) :
    (q.context = [] → callerContextAfterInit E q ts oid = q.context) ∧
    (q.context ≠ [] →
      dget (callerContextAfterInit E q ts oid) "query_id" =
        some (.str (queryId E.pyHash q.query_text ts oid)) ∧
      dget (callerContextAfterInit E q ts oid) "timestamp" = some (.str ts) ∧
      dget (callerContextAfterInit E q ts oid) "original_query" =
        some (.str q.query_text)) := by
  constructor
  · intro h
    simp [callerContextAfterInit, h]
  · intro h
    have hne : q.context.isEmpty = false := by
      cases hc : q.context with
      | nil => exact absurd hc h
      | cons a t => rfl
    have e : callerContextAfterInit E q ts oid =
        dset (dset (dset q.context "query_id"
            (.str (queryId E.pyHash q.query_text ts oid))) "timestamp" (.str ts))
          "original_query" (.str q.query_text) := by
      unfold callerContextAfterInit
      rw [hne]
      rfl
    rw [e]
    refine ⟨?_, ?_, ?_⟩
    · rw [dget_dset_ne _ _ _ _ (by decide), dget_dset_ne _ _ _ _ (by decide),
        dget_dset_self]
    · rw [dget_dset_ne _ _ _ _ (by decide), dget_dset_self]
    · rw [dget_dset_self]

/-- Witness for C5 (amended) on the concrete non-empty-context query. -/
theorem c5_context_mutation_witness :
    dget (callerContextAfterInit pyEnv0 qc "TS" "OID") "query_id" =
      some (.str (queryId pyEnv0.pyHash qc.query_text "TS" "OID")) ∧
    dget (callerContextAfterInit pyEnv0 qc "TS" "OID") "timestamp" =
      some (.str "TS") ∧
    dget (callerContextAfterInit pyEnv0 qc "TS" "OID") "original_query" =
      some (.str qc.query_text) :=
  (c5_context_mutation pyEnv0 qc "TS" "OID").2 (fun hh => List.noConfusion hh)

/-- C7. A query that is empty after stripping is rejected with HTTP 400
before the pipeline runs: the route's outcome is the fixed validation
error, independent of the agents, the coordinator environment, the clock
and the object identity — so no stage is ever invoked. -/
theorem c7_empty_query_rejected (E : PyEnv) (A : Agents) (c : Clock) (oid : String)
    (req : QueryRequest) (h : (pyStrip req.query).data = []) :
    process_query_route E A c oid req = .httpError 400 "Query cannot be empty" ∧
    ∀ (E2 : PyEnv) (A2 : Agents) (c2 : Clock) (oid2 : String),
      process_query_route E A c oid req = process_query_route E2 A2 c2 oid2 req := by
  have key : ∀ (E2 : PyEnv) (A2 : Agents) (c2 : Clock) (oid2 : String),
      process_query_route E2 A2 c2 oid2 req =
        .httpError 400 "Query cannot be empty" := by
    intro E2 A2 c2 oid2
    have hcq : cleanQuery req.query = .error (.valueError "Query cannot be empty") := by
      unfold cleanQuery
      rw [h]
      simp
    unfold process_query_route
    simp only [hcq]
    rfl
  exact ⟨key E A c oid, fun E2 A2 c2 oid2 => (key E A c oid).trans (key E2 A2 c2 oid2).symm⟩

/-- Witness for C7 on a concrete whitespace-only request. -/
theorem c7_empty_query_rejected_witness :
    (pyStrip reqBlank.query).data = [] ∧
    process_query_route pyEnv0 goodAgents clock0 "OID" reqBlank =
      .httpError 400 "Query cannot be empty" :=
  ⟨rfl, (c7_empty_query_rejected pyEnv0 goodAgents clock0 "OID" reqBlank rfl).1⟩

/-- C8 counterexample: the string fed to `hash` — and hence the correlation
identifier — also depends on `id(query)`: two executions with identical
query text and timestamp but different query objects hash different
strings, and (for a concrete hash behaviour) produce different
identifiers, contradicting "derived from the query text and the timestamp
alone". -/
theorem c8_counterexample :
    queryIdInput "q" "t" "1" ≠ queryIdInput "q" "t" "2" ∧
    queryId sumHash "q" "t" "1" ≠ queryId sumHash "q" "t" "2" := by
  constructor <;> decide

/-- C8 (amended). The correlation identifier is deterministically derived
from query text, timestamp AND the query object's identity: for a fixed
text and timestamp, the hash input determines the object identity — so
executions agreeing on text, timestamp and object identity (and on the
process's hash function) produce the same identifier, while a different
object identity changes the hash input. -/
theorem c8_query_id_depends_on_object (qt ts oid oid2 : String)
    (h : queryIdInput qt ts oid = queryIdInput qt ts oid2) : oid = oid2 := by
  unfold queryIdInput at h
  have h2 := congrArg String.data h
  simp only [String.data_append] at h2
  exact String.ext (List.append_cancel_left h2)

/-- Witness for C8 (amended) at a concrete input. -/
theorem c8_query_id_depends_on_object_witness :
    queryIdInput "a" "b" "c" = queryIdInput "a" "b" "c" ∧ "c" = "c" :=
  ⟨rfl, c8_query_id_depends_on_object "a" "b" "c" "c" rfl⟩

/-- C10. If the writer returns a success-shaped dict without the
`response` key, `_compose_response` raises `KeyError`, the pipeline aborts,
and `process_query` returns that error — no `Response` is constructed. -/
theorem c10_missing_response_key (E : PyEnv) (A : Agents) (q : UserQuery)
    (ts oid now : String) (s1 s2 s3 : PState) (rW : Dict)
    (h1 : processIntent A (initialState q (queryId E.pyHash q.query_text ts oid) ts) = .ok s1)
    (h2 : retrieveInfo A s1 = .ok s2) (h3 : analyzeInfo A s2 = .ok s3)
    (hW : A.writer (writeInput s3) = .ok rW)
    (hmiss : dget rW "response" = none) :
    process_query E A q ts oid now = .error (.keyError "response") := by
  have hcomp : composeResponse A s3 = .error (.keyError "response") := by
    simp only [composeResponse, hW, hmiss]
  have hg : runGraph A (initialState q (queryId E.pyHash q.query_text ts oid) ts) =
      .error (.keyError "response") := by
    unfold runGraph
    simp only [h1, h2, h3, hcomp]
  simp only [process_query, hg]

/-- Witness for C10 on the concrete run whose writer omits `response`. -/
theorem c10_missing_response_key_witness :
    process_query pyEnv0 c10Agents q0 "TS" "OID" "NOW" = .error (.keyError "response") :=
  c10_missing_response_key pyEnv0 c10Agents q0 "TS" "OID" "NOW" s1c s2c s3c
    [("message", .str "hello")] rfl rfl rfl rfl rfl

/-- C9. Every successful `POST /query` response body carries all four keys
`text`, `visualization_url`, `image_url` and `created_at`, with the two
visualization fields each a string or `null` (never missing); the body is
built from a successful coordinator `Response`, whose text it copies. -/
theorem c9_route_response_shape (E : PyEnv) (A : Agents) (c : Clock) (oid : String)
    (req : QueryRequest) (qr : QueryResponse)
    (h : process_query_route E A c oid req = .ok qr) :
    (∃ clean resp, cleanQuery req.query = .ok clean ∧
      process_query E A (handlerUserQuery c req clean) c.coordinatorTs oid
        c.responseTs = .ok resp ∧
      qr.text = resp.text ∧ qr.created_at = c.handlerTs) ∧
    dget qr.body "text" = some (.str qr.text) ∧
    (dget qr.body "visualization_url" = some .null ∨
      ∃ s, dget qr.body "visualization_url" = some (.str s)) ∧
    (dget qr.body "image_url" = some .null ∨
      ∃ s, dget qr.body "image_url" = some (.str s)) ∧
    dget qr.body "created_at" = some (.str qr.created_at) := by
  unfold process_query_route at h
  split at h
  next e hcq => exact absurd h (apiError_ne_ok e qr)
  next clean hcq =>
    split at h
    next e hp => exact absurd h (apiError_ne_ok e qr)
    next resp hp =>
      split at h
      next e hvu => exact absurd h (apiError_ne_ok e qr)
      next vu hvu =>
        split at h
        next e hiu => exact absurd h (apiError_ne_ok e qr)
        next iu hiu =>
          injection h with h
          subst h
          refine ⟨⟨clean, resp, hcq, hp, rfl, rfl⟩, rfl, ?_, ?_, rfl⟩
          · cases vu with
            | none => exact Or.inl rfl
            | some s => exact Or.inr ⟨s, rfl⟩
          · cases iu with
            | none => exact Or.inl rfl
            | some s => exact Or.inr ⟨s, rfl⟩

/-- Witness for C9 on the concrete successful route run. -/
theorem c9_route_response_shape_witness :
    (∃ clean resp, cleanQuery req0.query = .ok clean ∧
      process_query pyEnv0 goodAgents (handlerUserQuery clock0 req0 clean)
        clock0.coordinatorTs "OID" clock0.responseTs = .ok resp ∧
      qr0.text = resp.text ∧ qr0.created_at = clock0.handlerTs) ∧
    dget qr0.body "text" = some (.str qr0.text) ∧
    (dget qr0.body "visualization_url" = some .null ∨
      ∃ s, dget qr0.body "visualization_url" = some (.str s)) ∧
    (dget qr0.body "image_url" = some .null ∨
      ∃ s, dget qr0.body "image_url" = some (.str s)) ∧
    dget qr0.body "created_at" = some (.str qr0.created_at) :=
  c9_route_response_shape pyEnv0 goodAgents clock0 "OID" req0 qr0 rfl

end IoioAdvisor
